import Mathlib

/-!
# Verification of the `android-activity` event-model core

A shallow embedding of the two poll dispatchers
(`src/android-activity/src/native_activity/mod.rs` and
`src/android-activity/src/game_activity/mod.rs`), the save/restore port
(`StateSaver::store` / `StateLoader::load`), the shared state cache
(`config` / `native_window`) and the game-activity input frame accessor
(`input_events` / `InputBuffer::drop`).

Machine integers are modelled as `Int`/`Nat` with explicit two's-complement
casts.  Panics (`panic!`, `unreachable!`, `unwrap`, `expect`) are modelled
with `Except String`.  Externally visible effects (the multiplexer call,
the pre and post exec hooks, cache writes, user-callback invocations, heap
operations, log-and-ignore paths) are recorded in an explicit action trace
so that ordering and multiplicity properties can be stated.
-/

namespace AndroidActivity

/-! ## Integer casts -/

/-- Rust `as u32` on an `i32`/`i8` value: two's-complement truncation to 32
bits, read as an unsigned number. -/
def intToU32 (i : Int) : Nat := (i % 4294967296).toNat

/-- Rust `as i32` on an unsigned value (`u32`/`u128`): keep the low 32 bits
and reinterpret as two's complement. -/
def u32ToI32 (n : Nat) : Int :=
  let m := n % 4294967296
  if m < 2147483648 then (m : Int) else (m : Int) - 4294967296

/-- `Duration::as_millis` with the duration given in nanoseconds. -/
def asMillis (nanos : Nat) : Nat := nanos / 1000000

/-- The wait argument handed to `ALooper_pollAll`:
`if let Some(timeout) = timeout { timeout.as_millis() as i32 } else { -1 }`. -/
def timeoutMillisArg : Option Nat → Int
  | none => -1
  | some nanos => u32ToI32 (asMillis nanos)

/-! ## Looper constants

Modelled from the spec: the `ffi` modules (`native_activity/ffi.rs`,
`game_activity/ffi.rs`) are not under `src/`; the sentinel codes and the
reserved channel identifiers below follow the spec's description of the
native loop control block (`ALOOPER_POLL_*` sentinels, a reserved "main"
channel and a reserved "input available" channel), with the values of the
underlying `android_native_app_glue` headers. -/

def ALOOPER_POLL_WAKE : Int := -1
def ALOOPER_POLL_CALLBACK : Int := -2
def ALOOPER_POLL_TIMEOUT : Int := -3
def ALOOPER_POLL_ERROR : Int := -4
def LOOPER_ID_MAIN : Nat := 1
def LOOPER_ID_INPUT : Nat := 2

/-! ## Commands and poll results -/

/-- `MainEvent`: the closed command enumeration surfaced to the user. -/
inductive MainEvent where
  | InitWindow
  | TerminateWindow
  | WindowResized
  | RedrawNeeded
  | ContentRectChanged
  | GainedFocus
  | LostFocus
  | ConfigChanged
  | LowMemory
  | Start
  | Resume
  | SaveState
  | Pause
  | Stop
  | Destroy
  | InsetsChanged
  deriving DecidableEq, Repr

/-- The structured `{readable, writable, error, hangup}` flag set decoded
from a custom source's event mask.

Modelled from the spec: `ndk::looper::FdEvent` is an external crate type;
the spec describes its decoding as a structured set of the four flags
below, with decoding failure on any unexpected bit. -/
structure FdEventFlags where
  readable : Bool
  writable : Bool
  flagError : Bool
  hangup : Bool
  deriving DecidableEq, Repr

/-- `FdEvent::from_bits`: succeeds exactly when every set bit belongs to
the four known flags (mask `0xF`). -/
def fdEventFromBits (bits : Nat) : Option FdEventFlags :=
  if bits < 16 then
    some ⟨bits.testBit 0, bits.testBit 1, bits.testBit 2, bits.testBit 3⟩
  else
    none

/-- `PollEvent`: the tagged union handed to the user callback. -/
inductive PollEvent where
  | Wake
  | Timeout
  | Error
  | Main (cmd : MainEvent)
  | FdEvent (ident : Int) (fd : Int) (events : FdEventFlags) (data : Nat)
  deriving DecidableEq, Repr

/-- The native-activity command decode table (`cmd_i as u32` match):
`none` = unknown code (`unreachable!`), `some none` = `APP_CMD_INPUT_CHANGED`
(recognized but suppressed), `some (some e)` = surfaced command. -/
def parseCmdNative (c : Nat) : Option (Option MainEvent) :=
  if c = 0 then some none
  else if c = 1 then some (some .InitWindow)
  else if c = 2 then some (some .TerminateWindow)
  else if c = 3 then some (some .WindowResized)
  else if c = 4 then some (some .RedrawNeeded)
  else if c = 5 then some (some .ContentRectChanged)
  else if c = 6 then some (some .GainedFocus)
  else if c = 7 then some (some .LostFocus)
  else if c = 8 then some (some .ConfigChanged)
  else if c = 9 then some (some .LowMemory)
  else if c = 10 then some (some .Start)
  else if c = 11 then some (some .Resume)
  else if c = 12 then some (some .SaveState)
  else if c = 13 then some (some .Pause)
  else if c = 14 then some (some .Stop)
  else if c = 15 then some (some .Destroy)
  else none

/-- The game-activity command decode table: no suppressed variant (code 0 is
commented out in the source and falls to `unreachable!`), and code 16
(`APP_CMD_WINDOW_INSETS_CHANGED`) is additionally recognized. -/
def parseCmdGame (c : Nat) : Option MainEvent :=
  if c = 1 then some .InitWindow
  else if c = 2 then some .TerminateWindow
  else if c = 3 then some .WindowResized
  else if c = 4 then some .RedrawNeeded
  else if c = 5 then some .ContentRectChanged
  else if c = 6 then some .GainedFocus
  else if c = 7 then some .LostFocus
  else if c = 8 then some .ConfigChanged
  else if c = 9 then some .LowMemory
  else if c = 10 then some .Start
  else if c = 11 then some .Resume
  else if c = 12 then some .SaveState
  else if c = 13 then some .Pause
  else if c = 14 then some .Stop
  else if c = 15 then some .Destroy
  else if c = 16 then some .InsetsChanged
  else none

/-! ## Shared state cache and the dispatcher -/

/-- The `AndroidAppInner` cache fields: `config: RwLock<Configuration>` and
`native_window: RwLock<Option<NativeWindow>>`.  Configuration snapshots and
window handles are abstracted to `Nat` identifiers; a window pointer value
of `0` stands for null. -/
structure AppCache where
  config : Nat
  window : Option Nat
  deriving DecidableEq, Repr

/-- `AndroidAppInner::native_window`: reads the cache under the lock and
returns a fresh reference to the cached window when present. -/
def nativeWindow (st : AppCache) : Option Nat :=
  match st.window with
  | some w => some w
  | none => none

/-- One externally visible step taken by a `poll_events` call. -/
inductive Action where
  | PollAll (waitArg : Int)
  | LogError
  | PreExec (cmdI : Int)
  | SyncConfig (cfg : Nat)
  | SetWindow (w : Nat)
  | ClearWindow
  | Callback (ev : PollEvent)
  | PostExec (cmdI : Int)
  deriving DecidableEq, Repr

/-- The out-parameters and native-side values observed by one
`poll_events` call: the `ALooper_pollAll` return value and out-params, the
pending command byte, and the `android_app` config/window fields read by
the cache sync. -/
structure PollCtx where
  pollId : Int
  fd : Int
  events : Int
  sourcePtr : Nat
  pendingCmd : Int
  appConfig : Nat
  appWindow : Nat
  deriving DecidableEq, Repr

/-- The Shared State Cache side effect of one surfaced command
(`match cmd { ConfigChanged | InitWindow | TerminateWindow | _ }`):
the emitted cache-write actions and the resulting cache, or a panic
(`NonNull::new(win_ptr).unwrap()` on a null window pointer). -/
def cacheUpdate (cmd : MainEvent) (appConfig appWindow : Nat) (st : AppCache) :
    List Action × Except String AppCache :=
  match cmd with
  | .ConfigChanged =>
      ([.SyncConfig appConfig], .ok { st with config := appConfig })
  | .InitWindow =>
      if appWindow = 0 then
        ([], .error "called Option::unwrap on a None value")
      else
        ([.SetWindow appWindow], .ok { st with window := some appWindow })
  | .TerminateWindow =>
      ([.ClearWindow], .ok { st with window := none })
  | _ => ([], .ok st)

/-- The native-activity dispatch on the `ALooper_pollAll` result (the body
of the `match id` in `native_activity::AndroidAppInner::poll_events`). -/
def dispatchNative (ctx : PollCtx) (st : AppCache) :
    List Action × Except String AppCache :=
  if ctx.pollId = ALOOPER_POLL_WAKE then
    ([.Callback .Wake], .ok st)
  else if ctx.pollId = ALOOPER_POLL_CALLBACK then
    ([.LogError], .ok st)
  else if ctx.pollId = ALOOPER_POLL_TIMEOUT then
    ([.Callback .Timeout], .ok st)
  else if ctx.pollId = ALOOPER_POLL_ERROR then
    ([.Callback .Error], .ok st)
  else if 0 ≤ ctx.pollId then
    if intToU32 ctx.pollId = LOOPER_ID_MAIN then
      if ctx.sourcePtr ≠ 0 then
        match parseCmdNative (intToU32 ctx.pendingCmd) with
        | none => ([], .error "internal error: entered unreachable code")
        | some optCmd =>
          match optCmd with
          | none =>
              ([.PreExec ctx.pendingCmd, .PostExec ctx.pendingCmd], .ok st)
          | some cmd =>
              match cacheUpdate cmd ctx.appConfig ctx.appWindow st with
              | (upd, .error e) => ([.PreExec ctx.pendingCmd] ++ upd, .error e)
              | (upd, .ok st2) =>
                  ([.PreExec ctx.pendingCmd] ++ upd ++
                    [.Callback (.Main cmd), .PostExec ctx.pendingCmd], .ok st2)
      else
        ([], .error "ALooper_pollAll returned ID_MAIN event with NULL android_poll_source!")
    else if intToU32 ctx.pollId = LOOPER_ID_INPUT then
      ([], .ok st)
    else
      match fdEventFromBits (intToU32 ctx.events) with
      | none => ([], .error "Spurious ALooper_pollAll event flags")
      | some flags =>
          ([.Callback (.FdEvent ctx.pollId ctx.fd flags ctx.sourcePtr)], .ok st)
  else
    ([.LogError], .ok st)

/-- `native_activity::AndroidAppInner::poll_events`: one multiplexer call
with the translated wait argument, followed by the dispatch above. -/
def pollEventsNative (timeout : Option Nat) (ctx : PollCtx) (st : AppCache) :
    List Action × Except String AppCache :=
  let d := dispatchNative ctx st
  (.PollAll (timeoutMillisArg timeout) :: d.1, d.2)

/-- The game-activity dispatch: identical skeleton, but the decode table is
`parseCmdGame` (no suppressed command) and there is no reserved input
channel — every non-main non-negative identifier is a custom source. -/
def dispatchGame (ctx : PollCtx) (st : AppCache) :
    List Action × Except String AppCache :=
  if ctx.pollId = ALOOPER_POLL_WAKE then
    ([.Callback .Wake], .ok st)
  else if ctx.pollId = ALOOPER_POLL_CALLBACK then
    ([.LogError], .ok st)
  else if ctx.pollId = ALOOPER_POLL_TIMEOUT then
    ([.Callback .Timeout], .ok st)
  else if ctx.pollId = ALOOPER_POLL_ERROR then
    ([.Callback .Error], .ok st)
  else if 0 ≤ ctx.pollId then
    if intToU32 ctx.pollId = LOOPER_ID_MAIN then
      if ctx.sourcePtr ≠ 0 then
        match parseCmdGame (intToU32 ctx.pendingCmd) with
        | none => ([], .error "internal error: entered unreachable code")
        | some cmd =>
            match cacheUpdate cmd ctx.appConfig ctx.appWindow st with
            | (upd, .error e) => ([.PreExec ctx.pendingCmd] ++ upd, .error e)
            | (upd, .ok st2) =>
                ([.PreExec ctx.pendingCmd] ++ upd ++
                  [.Callback (.Main cmd), .PostExec ctx.pendingCmd], .ok st2)
      else
        ([], .error "ALooper_pollAll returned ID_MAIN event with NULL android_poll_source!")
    else
      match fdEventFromBits (intToU32 ctx.events) with
      | none => ([], .error "Spurious ALooper_pollAll event flags")
      | some flags =>
          ([.Callback (.FdEvent ctx.pollId ctx.fd flags ctx.sourcePtr)], .ok st)
  else
    ([.LogError], .ok st)

/-- `game_activity::AndroidAppInner::poll_events`. -/
def pollEventsGame (timeout : Option Nat) (ctx : PollCtx) (st : AppCache) :
    List Action × Except String AppCache :=
  let d := dispatchGame ctx st
  (.PollAll (timeoutMillisArg timeout) :: d.1, d.2)

/-! ## Command sequences (for the surface-cache invariant) -/

/-- The native-side values a single surfaced main command is processed
against: the command plus the `android_app` config/window fields at the
moment of the cache sync. -/
structure CmdEnv where
  cmd : MainEvent
  appConfig : Nat
  appWindow : Nat
  deriving DecidableEq, Repr

/-- Process a sequence of surfaced main commands through the Shared State
Cache side effect of `poll_events`, threading the cache. -/
def runMainCmds (envs : List CmdEnv) (st : AppCache) : Except String AppCache :=
  match envs with
  | [] => .ok st
  | e :: rest =>
    match cacheUpdate e.cmd e.appConfig e.appWindow st with
    | (_, .error msg) => .error msg
    | (_, .ok st2) => runMainCmds rest st2

/-- Commands that touch the cached display surface. -/
def isWindowCmd (c : MainEvent) : Bool :=
  match c with
  | .InitWindow => true
  | .TerminateWindow => true
  | _ => false

/-- Stated from the spec's words, for comparison with the code-side fold:
the display surface is `Some` iff an `InitWindow` has been observed more
recently than the last `TerminateWindow` (or no `TerminateWindow` yet),
i.e. scanning backwards from the most recent command, the first
window-affecting command found is `InitWindow`; `w0` is the surface state
before the sequence. -/
def surfaceSomeSpecFrom (w0 : Bool) (cmds : List MainEvent) : Bool :=
  match cmds.reverse.find? isWindowCmd with
  | some .InitWindow => true
  | some _ => false
  | none => w0

/-- The spec-side surface predicate starting from the initial cache
(`native_window: Default::default()`, i.e. `None`). -/
def surfaceSomeSpec (cmds : List MainEvent) : Bool :=
  surfaceSomeSpecFrom false cmds

/-! ## Save/restore port -/

/-- The `android_app` saved-state slot plus enough heap bookkeeping to
express release/install ordering: `slot` is the `savedState` pointer
(`none` = null) tagged with an allocation identifier and the stored bytes,
`savedStateSize` is the recorded length, `nextId` numbers allocations and
`live` lists the currently live (malloced, unfreed) allocations. -/
structure SaveHeap where
  slot : Option (Nat × List Nat)
  savedStateSize : Nat
  nextId : Nat
  live : List Nat
  deriving DecidableEq, Repr

/-- A fresh process: no saved-state buffer installed. -/
def freshHeap : SaveHeap := ⟨none, 0, 0, []⟩

/-- Heap-level steps taken by `StateSaver::store`. -/
inductive HeapOp where
  | Free (id : Nat)
  | Malloc (id : Nat)
  | Install (id : Nat) (len : Nat)
  deriving DecidableEq, Repr

/-- `StateSaver::store`: free any pre-existing buffer (nulling the slot and
zeroing the size), `malloc` a fresh buffer of exactly `bytes.length`, copy,
then install pointer and length.  `allocOk = false` models `malloc`
returning null, which panics. -/
def store (bytes : List Nat) (allocOk : Bool) (h : SaveHeap) :
    List HeapOp × Except String SaveHeap :=
  let freed : List HeapOp × SaveHeap :=
    match h.slot with
    | some (id, _) =>
        ([.Free id], { h with slot := none, savedStateSize := 0, live := h.live.erase id })
    | none => ([], h)
  if allocOk then
    let id := freed.2.nextId
    (freed.1 ++ [.Malloc id, .Install id bytes.length],
     .ok { freed.2 with
            slot := some (id, bytes)
            savedStateSize := bytes.length
            nextId := id + 1
            live := freed.2.live ++ [id] })
  else
    (freed.1, .error "Failed to allocate save_state buffer")

/-- `StateLoader::load`: `None` unless the slot pointer is non-null and the
recorded size is positive; otherwise a copy of the installed bytes. -/
def load (h : SaveHeap) : Option (List Nat) :=
  match h.slot with
  | some (_, b) => if h.savedStateSize > 0 then some b else none
  | none => none

/-- `store` immediately followed by `load` within the same notification
scope, starting from a fresh slot, with a successful allocation. -/
def storeThenLoad (bytes : List Nat) : Option (List Nat) :=
  match (store bytes true freshHeap).2 with
  | .ok h => load h
  | .error _ => none

/-! ## Input frame accessor (game-activity flavor) -/

/-- The native `android_input_buffer` arrays; counts equal the lengths of
the modelled arrays, and events are abstracted to `Nat` payloads. -/
structure AndroidInputBuffer where
  keyEvents : List Nat
  motionEvents : List Nat
  deriving DecidableEq, Repr

/-- Externally visible steps of `input_events`: user-callback invocations
with copied `Key`/`Motion` values, and the native array clears. -/
inductive InputAction where
  | KeyCb (e : Nat)
  | MotionCb (e : Nat)
  | ClearMotions
  | ClearKeys
  deriving DecidableEq, Repr

/-- `InputBuffer::drop`: unconditionally clear the native motion-event and
key-event arrays. -/
def inputBufferDrop : List InputAction := [.ClearMotions, .ClearKeys]

/-- The callback invocations of one `input_events` call: every buffered key
event (in order, copied), then every buffered motion event. -/
def inputCallbacks (buf : AndroidInputBuffer) : List InputAction :=
  buf.keyEvents.map .KeyCb ++ buf.motionEvents.map .MotionCb

/-- `game_activity::AndroidAppInner::input_events`:
`android_app_swap_input_buffers` returning null (`none`) returns
immediately with no callbacks and no clear; otherwise both iterators are
drained and the buffer is dropped at scope end. -/
def inputEvents (buf : Option AndroidInputBuffer) : List InputAction :=
  match buf with
  | none => []
  | some b => inputCallbacks b ++ inputBufferDrop

/-- `input_events` when the callback aborts the scope (panic/unwind) after
`j` invocations: Rust unwinding still runs `InputBuffer::drop`, so the
trace is the first `j` callback invocations followed by the clears. -/
def inputEventsAborted (buf : AndroidInputBuffer) (j : Nat) : List InputAction :=
  (inputCallbacks buf).take j ++ inputBufferDrop

/-! ## Helper predicates -/

/-- Is the action a user-callback invocation? -/
def isCallbackAct : Action → Bool
  | .Callback _ => true
  | _ => false

/-- Is the action a call into the native multiplexer? -/
def isPollAllAct : Action → Bool
  | .PollAll _ => true
  | _ => false

/-- Did the computation end in a panic? -/
def isErr {α : Type} : Except String α → Bool
  | .error _ => true
  | .ok _ => false

/-- Is the input action a `Key` callback? -/
def isKeyCbAct : InputAction → Bool
  | .KeyCb _ => true
  | _ => false

/-- Is the input action a `Motion` callback? -/
def isMotionCbAct : InputAction → Bool
  | .MotionCb _ => true
  | _ => false

/-! ## Helper lemmas -/

theorem cacheUpdate_countP_callback (cmd : MainEvent) (cfg w : Nat) (st : AppCache) :
    (cacheUpdate cmd cfg w st).1.countP isCallbackAct = 0 := by
  cases cmd <;> by_cases h : w = 0 <;> simp [cacheUpdate, h, isCallbackAct]

theorem cacheUpdate_countP_pollAll (cmd : MainEvent) (cfg w : Nat) (st : AppCache) :
    (cacheUpdate cmd cfg w st).1.countP isPollAllAct = 0 := by
  cases cmd <;> by_cases h : w = 0 <;> simp [cacheUpdate, h, isPollAllAct]

theorem dispatchNative_countP_pollAll (ctx : PollCtx) (st : AppCache) :
    (dispatchNative ctx st).1.countP isPollAllAct = 0 := by
  unfold dispatchNative
  repeat' split
  all_goals try rfl
  all_goals
    rename_i upd r heq
    have h0 := congrArg (fun p : List Action × Except String AppCache => p.1.countP isPollAllAct) heq
    simp only [cacheUpdate_countP_pollAll] at h0
    simp [List.countP_append, List.countP_cons, isPollAllAct, ← h0]

theorem dispatchGame_countP_pollAll (ctx : PollCtx) (st : AppCache) :
    (dispatchGame ctx st).1.countP isPollAllAct = 0 := by
  unfold dispatchGame
  repeat' split
  all_goals try rfl
  all_goals
    rename_i upd r heq
    have h0 := congrArg (fun p : List Action × Except String AppCache => p.1.countP isPollAllAct) heq
    simp only [cacheUpdate_countP_pollAll] at h0
    simp [List.countP_append, List.countP_cons, isPollAllAct, ← h0]

theorem dispatchNative_main_branch (ctx : PollCtx) (st : AppCache) (cmd : MainEvent)
    (upd : List Action) (st2 : AppCache)
    (h1 : 0 ≤ ctx.pollId) (h2 : intToU32 ctx.pollId = LOOPER_ID_MAIN)
    (h3 : ctx.sourcePtr ≠ 0)
    (h4 : parseCmdNative (intToU32 ctx.pendingCmd) = some (some cmd))
    (h5 : cacheUpdate cmd ctx.appConfig ctx.appWindow st = (upd, .ok st2)) :
    dispatchNative ctx st =
      ([.PreExec ctx.pendingCmd] ++ upd ++
        [.Callback (.Main cmd), .PostExec ctx.pendingCmd], .ok st2) := by
  have hne1 : ¬(ctx.pollId = ALOOPER_POLL_WAKE) := by unfold ALOOPER_POLL_WAKE; omega
  have hne2 : ¬(ctx.pollId = ALOOPER_POLL_CALLBACK) := by unfold ALOOPER_POLL_CALLBACK; omega
  have hne3 : ¬(ctx.pollId = ALOOPER_POLL_TIMEOUT) := by unfold ALOOPER_POLL_TIMEOUT; omega
  have hne4 : ¬(ctx.pollId = ALOOPER_POLL_ERROR) := by unfold ALOOPER_POLL_ERROR; omega
  unfold dispatchNative
  rw [if_neg hne1, if_neg hne2, if_neg hne3, if_neg hne4, if_pos h1, if_pos h2, if_pos h3, h4]
  dsimp only
  rw [h5]

theorem dispatchGame_main_branch (ctx : PollCtx) (st : AppCache) (cmd : MainEvent)
    (upd : List Action) (st2 : AppCache)
    (h1 : 0 ≤ ctx.pollId) (h2 : intToU32 ctx.pollId = LOOPER_ID_MAIN)
    (h3 : ctx.sourcePtr ≠ 0)
    (h4 : parseCmdGame (intToU32 ctx.pendingCmd) = some cmd)
    (h5 : cacheUpdate cmd ctx.appConfig ctx.appWindow st = (upd, .ok st2)) :
    dispatchGame ctx st =
      ([.PreExec ctx.pendingCmd] ++ upd ++
        [.Callback (.Main cmd), .PostExec ctx.pendingCmd], .ok st2) := by
  have hne1 : ¬(ctx.pollId = ALOOPER_POLL_WAKE) := by unfold ALOOPER_POLL_WAKE; omega
  have hne2 : ¬(ctx.pollId = ALOOPER_POLL_CALLBACK) := by unfold ALOOPER_POLL_CALLBACK; omega
  have hne3 : ¬(ctx.pollId = ALOOPER_POLL_TIMEOUT) := by unfold ALOOPER_POLL_TIMEOUT; omega
  have hne4 : ¬(ctx.pollId = ALOOPER_POLL_ERROR) := by unfold ALOOPER_POLL_ERROR; omega
  unfold dispatchGame
  rw [if_neg hne1, if_neg hne2, if_neg hne3, if_neg hne4, if_pos h1, if_pos h2, if_pos h3, h4]
  dsimp only
  rw [h5]

theorem dispatchNative_suppressed_branch (ctx : PollCtx) (st : AppCache)
    (h1 : 0 ≤ ctx.pollId) (h2 : intToU32 ctx.pollId = LOOPER_ID_MAIN)
    (h3 : ctx.sourcePtr ≠ 0)
    (h4 : parseCmdNative (intToU32 ctx.pendingCmd) = some none) :
    dispatchNative ctx st =
      ([.PreExec ctx.pendingCmd, .PostExec ctx.pendingCmd], .ok st) := by
  have hne1 : ¬(ctx.pollId = ALOOPER_POLL_WAKE) := by unfold ALOOPER_POLL_WAKE; omega
  have hne2 : ¬(ctx.pollId = ALOOPER_POLL_CALLBACK) := by unfold ALOOPER_POLL_CALLBACK; omega
  have hne3 : ¬(ctx.pollId = ALOOPER_POLL_TIMEOUT) := by unfold ALOOPER_POLL_TIMEOUT; omega
  have hne4 : ¬(ctx.pollId = ALOOPER_POLL_ERROR) := by unfold ALOOPER_POLL_ERROR; omega
  unfold dispatchNative
  rw [if_neg hne1, if_neg hne2, if_neg hne3, if_neg hne4, if_pos h1, if_pos h2, if_pos h3, h4]

theorem dispatchNative_negative_ignored (ctx : PollCtx) (st : AppCache)
    (h0 : ctx.pollId < 0)
    (hw : ctx.pollId ≠ ALOOPER_POLL_WAKE)
    (ht : ctx.pollId ≠ ALOOPER_POLL_TIMEOUT)
    (he : ctx.pollId ≠ ALOOPER_POLL_ERROR) :
    dispatchNative ctx st = ([.LogError], .ok st) := by
  have hnn : ¬(0 ≤ ctx.pollId) := by omega
  by_cases hc : ctx.pollId = ALOOPER_POLL_CALLBACK
  · unfold dispatchNative
    rw [if_neg hw, if_pos hc]
  · unfold dispatchNative
    rw [if_neg hw, if_neg hc, if_neg ht, if_neg he, if_neg hnn]

/-- C1: for every recognized, non-suppressed main command, both flavors of
`poll_events` perform exactly one user-callback invocation, with the strict
order multiplexer call, pre-exec hook, Shared State Cache update, user
callback with the classified `MainCommand`, post-exec hook; the returned
cache state is the one installed before the callback fires (for
ConfigChanged the replaced configuration snapshot, for InitWindow the
captured surface handle, for TerminateWindow the cleared handle). -/
theorem claim1_two_phase_order (timeout : Option Nat) (ctx : PollCtx) (st : AppCache)
    (cmd : MainEvent) (upd : List Action) (st2 : AppCache)
    (h1 : 0 ≤ ctx.pollId) (h2 : intToU32 ctx.pollId = LOOPER_ID_MAIN)
    (h3 : ctx.sourcePtr ≠ 0)
    (h5 : cacheUpdate cmd ctx.appConfig ctx.appWindow st = (upd, .ok st2)) :
    (parseCmdNative (intToU32 ctx.pendingCmd) = some (some cmd) →
      pollEventsNative timeout ctx st =
        (.PollAll (timeoutMillisArg timeout) :: .PreExec ctx.pendingCmd ::
          (upd ++ [.Callback (.Main cmd), .PostExec ctx.pendingCmd]), .ok st2) ∧
      (pollEventsNative timeout ctx st).1.countP isCallbackAct = 1) ∧
    (parseCmdGame (intToU32 ctx.pendingCmd) = some cmd →
      pollEventsGame timeout ctx st =
        (.PollAll (timeoutMillisArg timeout) :: .PreExec ctx.pendingCmd ::
          (upd ++ [.Callback (.Main cmd), .PostExec ctx.pendingCmd]), .ok st2) ∧
      (pollEventsGame timeout ctx st).1.countP isCallbackAct = 1) ∧
    (cmd = .ConfigChanged →
      upd = [.SyncConfig ctx.appConfig] ∧ st2.config = ctx.appConfig ∧ st2.window = st.window) ∧
    (cmd = .InitWindow →
      upd = [.SetWindow ctx.appWindow] ∧ st2.config = st.config ∧ st2.window = some ctx.appWindow) ∧
    (cmd = .TerminateWindow →
      upd = [.ClearWindow] ∧ st2.config = st.config ∧ st2.window = none) := by
  have hcb := cacheUpdate_countP_callback cmd ctx.appConfig ctx.appWindow st
  rw [h5] at hcb
  refine ⟨?_, ?_, ?_, ?_, ?_⟩
  · intro h4
    have hd := dispatchNative_main_branch ctx st cmd upd st2 h1 h2 h3 h4 h5
    constructor
    · simp [pollEventsNative, hd]
    · simp [pollEventsNative, hd, List.countP_cons, List.countP_append, isCallbackAct, hcb]
  · intro h4
    have hd := dispatchGame_main_branch ctx st cmd upd st2 h1 h2 h3 h4 h5
    constructor
    · simp [pollEventsGame, hd]
    · simp [pollEventsGame, hd, List.countP_cons, List.countP_append, isCallbackAct, hcb]
  · intro hc
    subst hc
    simp only [cacheUpdate, Prod.mk.injEq, Except.ok.injEq] at h5
    obtain ⟨hu, hs⟩ := h5
    subst hs
    exact ⟨hu.symm, rfl, rfl⟩
  · intro hc
    subst hc
    by_cases hw : ctx.appWindow = 0
    · simp [cacheUpdate, hw] at h5
    · simp only [cacheUpdate, if_neg hw, Prod.mk.injEq, Except.ok.injEq] at h5
      obtain ⟨hu, hs⟩ := h5
      subst hs
      exact ⟨hu.symm, rfl, rfl⟩
  · intro hc
    subst hc
    simp only [cacheUpdate, Prod.mk.injEq, Except.ok.injEq] at h5
    obtain ⟨hu, hs⟩ := h5
    subst hs
    exact ⟨hu.symm, rfl, rfl⟩

/-- C1 witness: a ConfigChanged command (code 8) on the main channel runs
pre-exec, the config sync, the single callback, then post-exec. -/
theorem claim1_two_phase_order_witness :
    pollEventsNative none ⟨1, 0, 0, 1, 8, 42, 0⟩ ⟨0, none⟩ =
      ([.PollAll (-1), .PreExec 8, .SyncConfig 42,
        .Callback (.Main .ConfigChanged), .PostExec 8], .ok ⟨42, none⟩) := by
  have h := (claim1_two_phase_order none ⟨1, 0, 0, 1, 8, 42, 0⟩ ⟨0, none⟩
      .ConfigChanged [.SyncConfig 42] ⟨42, none⟩ (by decide) (by decide) (by decide) rfl).1 rfl
  exact h.1

/-- C4: the internal-only `APP_CMD_INPUT_CHANGED` code (0) read from the
main channel never reaches the user callback, but the pre-exec and
post-exec hooks are both still called for it, in that order. -/
theorem claim4_input_changed_suppressed (timeout : Option Nat) (ctx : PollCtx) (st : AppCache)
    (h1 : 0 ≤ ctx.pollId) (h2 : intToU32 ctx.pollId = LOOPER_ID_MAIN)
    (h3 : ctx.sourcePtr ≠ 0) (h4 : intToU32 ctx.pendingCmd = 0) :
    pollEventsNative timeout ctx st =
      ([.PollAll (timeoutMillisArg timeout), .PreExec ctx.pendingCmd,
        .PostExec ctx.pendingCmd], .ok st) ∧
    (pollEventsNative timeout ctx st).1.countP isCallbackAct = 0 := by
  have hp : parseCmdNative (intToU32 ctx.pendingCmd) = some none := by
    rw [h4]; rfl
  have hd := dispatchNative_suppressed_branch ctx st h1 h2 h3 hp
  constructor
  · simp [pollEventsNative, hd]
  · simp [pollEventsNative, hd, List.countP_cons, isCallbackAct]

/-- C4 witness: the InputChanged code delivered on the main channel. -/
theorem claim4_input_changed_suppressed_witness :
    pollEventsNative none ⟨1, 0, 0, 1, 0, 0, 0⟩ ⟨0, none⟩ =
      ([.PollAll (-1), .PreExec 0, .PostExec 0], .ok ⟨0, none⟩) :=
  (claim4_input_changed_suppressed none ⟨1, 0, 0, 1, 0, 0, 0⟩ ⟨0, none⟩
    (by decide) (by decide) (by decide) (by decide)).1

/-- C9: the callback-source sentinel (-2), and any negative multiplexer
code outside the documented sentinel set, is logged and ignored: no user
callback, no state change, and a normal (non-panicking) return. -/
theorem claim9_negative_ignored (timeout : Option Nat) (ctx : PollCtx) (st : AppCache)
    (h0 : ctx.pollId < 0)
    (hw : ctx.pollId ≠ ALOOPER_POLL_WAKE)
    (ht : ctx.pollId ≠ ALOOPER_POLL_TIMEOUT)
    (he : ctx.pollId ≠ ALOOPER_POLL_ERROR) :
    pollEventsNative timeout ctx st =
      ([.PollAll (timeoutMillisArg timeout), .LogError], .ok st) ∧
    (pollEventsNative timeout ctx st).1.countP isCallbackAct = 0 ∧
    (pollEventsNative timeout ctx st).2 = .ok st := by
  have hd := dispatchNative_negative_ignored ctx st h0 hw ht he
  refine ⟨?_, ?_, ?_⟩
  · simp [pollEventsNative, hd]
  · simp [pollEventsNative, hd, List.countP_cons, isCallbackAct]
  · simp [pollEventsNative, hd]

/-- C9 witness: the callback sentinel -2 and the undocumented code -5. -/
theorem claim9_negative_ignored_witness :
    pollEventsNative none ⟨-2, 0, 0, 0, 0, 0, 0⟩ ⟨0, none⟩ =
      ([.PollAll (-1), .LogError], .ok ⟨0, none⟩) ∧
    pollEventsNative none ⟨-5, 0, 0, 0, 0, 0, 0⟩ ⟨0, none⟩ =
      ([.PollAll (-1), .LogError], .ok ⟨0, none⟩) :=
  ⟨(claim9_negative_ignored none ⟨-2, 0, 0, 0, 0, 0, 0⟩ ⟨0, none⟩
      (by decide) (by decide) (by decide) (by decide)).1,
   (claim9_negative_ignored none ⟨-5, 0, 0, 0, 0, 0, 0⟩ ⟨0, none⟩
      (by decide) (by decide) (by decide) (by decide)).1⟩

/-- C3 counterexample: the claim says the wait argument for `Some(d)` is
the number of whole milliseconds of `d`; for a duration of 2^31
milliseconds the truncating `as i32` cast instead yields -2^31. -/
theorem claim3_counterexample :
    timeoutMillisArg (some 2147483648000000) ≠
      ((asMillis 2147483648000000 : Nat) : Int) := by
  decide

/-- C3 (amended): each `poll_events` call (both flavors) performs exactly
one multiplexer call, as the first externally visible step; the wait
argument is -1 for `None` and, for `Some(d)`, the whole-millisecond count
of `d` whenever that count fits in `i32` (below 2^31) — in general it is
the truncating 32-bit cast of the count. -/
theorem claim3_one_multiplexer_call (timeout : Option Nat) (ctx : PollCtx) (st : AppCache) :
    (pollEventsNative timeout ctx st).1.countP isPollAllAct = 1 ∧
    (pollEventsNative timeout ctx st).1.head? =
      some (.PollAll (timeoutMillisArg timeout)) ∧
    (pollEventsGame timeout ctx st).1.countP isPollAllAct = 1 ∧
    (pollEventsGame timeout ctx st).1.head? =
      some (.PollAll (timeoutMillisArg timeout)) ∧
    timeoutMillisArg none = -1 ∧
    (∀ nanos : Nat, asMillis nanos < 2147483648 →
      timeoutMillisArg (some nanos) = (asMillis nanos : Int)) := by
  refine ⟨?_, rfl, ?_, rfl, rfl, ?_⟩
  · simp [pollEventsNative, List.countP_cons, isPollAllAct, dispatchNative_countP_pollAll]
  · simp [pollEventsGame, List.countP_cons, isPollAllAct, dispatchGame_countP_pollAll]
  · intro nanos h
    have hm : asMillis nanos % 4294967296 = asMillis nanos :=
      Nat.mod_eq_of_lt (by omega)
    simp [timeoutMillisArg, u32ToI32, hm, h]

/-- C3 witness: a 5 ms timeout produces wait argument 5 and the trace
opens with the single multiplexer call. -/
theorem claim3_one_multiplexer_call_witness :
    timeoutMillisArg (some 5000000) = ((5 : Nat) : Int) ∧
    (pollEventsNative (some 5000000) ⟨-3, 0, 0, 0, 0, 0, 0⟩ ⟨0, none⟩).1.countP isPollAllAct = 1 :=
  ⟨(claim3_one_multiplexer_call (some 5000000) ⟨-3, 0, 0, 0, 0, 0, 0⟩ ⟨0, none⟩).2.2.2.2.2
      5000000 (by decide),
   (claim3_one_multiplexer_call (some 5000000) ⟨-3, 0, 0, 0, 0, 0, 0⟩ ⟨0, none⟩).1⟩

/-- Modelled from the spec: the native multiplexer's interpretation of the
wait argument (external collaborator) — a negative wait argument (the spec
documents -1) means an unbounded, infinite wait. -/
def looperWaitIndefinite (waitArg : Int) : Bool := decide (waitArg < 0)

/-- C10: the timeout conversion is the truncating cast
`timeout.as_millis() as i32`: it equals the two's-complement reading of
the low 32 bits of the whole-millisecond count; any sub-millisecond
duration yields wait argument 0 (a non-blocking poll); whenever the
wrapped count lands in the upper half the argument is negative and the
native multiplexer then waits indefinitely instead of honouring the
requested bound (witnessed concretely by a 2^31-millisecond duration). -/
theorem claim10_truncating_cast (nanos : Nat) :
    timeoutMillisArg (some nanos) = u32ToI32 (asMillis nanos % 4294967296) ∧
    (nanos < 1000000 → timeoutMillisArg (some nanos) = 0) ∧
    (2147483648 ≤ asMillis nanos % 4294967296 →
      timeoutMillisArg (some nanos) < 0 ∧
      looperWaitIndefinite (timeoutMillisArg (some nanos)) = true) ∧
    (2147483647 < asMillis 2147483648000000 ∧
      timeoutMillisArg (some 2147483648000000) = -2147483648) := by
  have hm : asMillis nanos % 4294967296 % 4294967296 = asMillis nanos % 4294967296 :=
    Nat.mod_mod_of_dvd _ dvd_rfl
  refine ⟨?_, ?_, ?_, by decide⟩
  · simp [timeoutMillisArg, u32ToI32, hm]
  · intro h
    have hz : asMillis nanos = 0 := Nat.div_eq_of_lt h
    simp [timeoutMillisArg, u32ToI32, hz]
  · intro h
    have hlt : asMillis nanos % 4294967296 < 4294967296 :=
      Nat.mod_lt _ (by norm_num)
    have hneg : timeoutMillisArg (some nanos) < 0 := by
      simp only [timeoutMillisArg, u32ToI32]
      rw [if_neg (by omega)]
      omega
    exact ⟨hneg, by simp [looperWaitIndefinite, hneg]⟩

/-- C10 witness: a half-millisecond duration polls non-blockingly, and a
2^31-millisecond duration produces a negative wait argument. -/
theorem claim10_truncating_cast_witness :
    timeoutMillisArg (some 500000) = 0 ∧
    timeoutMillisArg (some 2147483648000000) < 0 :=
  ⟨(claim10_truncating_cast 500000).2.1 (by decide),
   ((claim10_truncating_cast 2147483648000000).2.2.1 (by decide)).1⟩

/-- C5 counterexample: the claim promises `store` then `load` returns
`Some` of a copy of the stored slice for every slice; for the empty slice
the recorded length is zero, so `load` returns `None`. -/
theorem claim5_counterexample : storeThenLoad [] ≠ some [] := by decide

/-- C5 (amended): for every non-empty byte slice `b`, `store(b)` then
`load()` in the same notification scope returns `Some` of a byte-for-byte
copy of `b` (the empty slice is the exception: its recorded length 0 makes
`load` return `None`); calling `store` twice in a row frees the first
installed buffer before allocating and installing the second, leaving
exactly one live buffer — the second — installed. -/
theorem claim5_store_load_roundtrip (b b1 b2 : List Nat) :
    (b ≠ [] → storeThenLoad b = some b) ∧
    store b1 true freshHeap =
      ([.Malloc 0, .Install 0 b1.length], .ok ⟨some (0, b1), b1.length, 1, [0]⟩) ∧
    store b2 true ⟨some (0, b1), b1.length, 1, [0]⟩ =
      ([.Free 0, .Malloc 1, .Install 1 b2.length],
        .ok ⟨some (1, b2), b2.length, 2, [1]⟩) := by
  refine ⟨?_, rfl, rfl⟩
  intro hb
  have hlen : 0 < b.length := List.length_pos.mpr hb
  simp [storeThenLoad, store, freshHeap, load, hlen]

/-- C5 witness: a three-byte slice round-trips, and the concrete
double-store frees buffer 0 before installing buffer 1. -/
theorem claim5_store_load_roundtrip_witness :
    storeThenLoad [1, 2, 3] = some [1, 2, 3] ∧
    store [9] true ⟨some (0, [1, 2, 3]), 3, 1, [0]⟩ =
      ([.Free 0, .Malloc 1, .Install 1 1], .ok ⟨some (1, [9]), 1, 2, [1]⟩) :=
  ⟨(claim5_store_load_roundtrip [1, 2, 3] [] []).1 (by decide),
   (claim5_store_load_roundtrip [] [1, 2, 3] [9]).2.2⟩

/-- C6: `load` returns `None` exactly when no saved-state buffer is
installed or the recorded length is zero — in particular on a fresh
process with no prior `store` — and otherwise returns a copy of the
installed bytes. -/
theorem claim6_load_none_or_copy (h : SaveHeap) :
    (load h = none ↔ (h.slot = none ∨ h.savedStateSize = 0)) ∧
    load freshHeap = none ∧
    (∀ id bytes, h.slot = some (id, bytes) → 0 < h.savedStateSize →
      load h = some bytes) := by
  refine ⟨?_, rfl, ?_⟩
  · cases hs : h.slot with
    | none => simp [load, hs]
    | some p =>
      cases p with
      | mk id bytes =>
        by_cases hz : h.savedStateSize > 0 <;> simp [load, hs, hz] <;> omega
  · intro id bytes hs hz
    simp [load, hs, hz]

/-- C6 witness: an installed two-byte buffer loads as a copy, and a fresh
process loads nothing. -/
theorem claim6_load_none_or_copy_witness :
    load ⟨some (0, [1, 2]), 2, 1, [0]⟩ = some [1, 2] ∧ load freshHeap = none :=
  ⟨(claim6_load_none_or_copy ⟨some (0, [1, 2]), 2, 1, [0]⟩).2.2 0 [1, 2] rfl (by decide),
   (claim6_load_none_or_copy freshHeap).2.1⟩

theorem inputCallbacks_no_clear (buf : AndroidInputBuffer) :
    InputAction.ClearKeys ∉ inputCallbacks buf ∧
    InputAction.ClearMotions ∉ inputCallbacks buf := by
  constructor <;> simp [inputCallbacks, List.mem_append, List.mem_map]

/-- C7: `input_events` with no available buffer returns with zero callback
invocations; with a buffer of k key and m motion events the callback runs
exactly k times with copied Key values followed by exactly m times with
copied Motion values, and each native array is cleared exactly once at
scope end — also when the callback aborts the scope after only `j`
invocations. -/
theorem claim7_input_frame (buf : AndroidInputBuffer) (j : Nat) :
    inputEvents none = [] ∧
    inputEvents (some buf) =
      buf.keyEvents.map InputAction.KeyCb ++
        buf.motionEvents.map InputAction.MotionCb ++ inputBufferDrop ∧
    (inputEvents (some buf)).countP isKeyCbAct = buf.keyEvents.length ∧
    (inputEvents (some buf)).countP isMotionCbAct = buf.motionEvents.length ∧
    (inputEvents (some buf)).count InputAction.ClearKeys = 1 ∧
    (inputEvents (some buf)).count InputAction.ClearMotions = 1 ∧
    (inputEventsAborted buf j).count InputAction.ClearKeys = 1 ∧
    (inputEventsAborted buf j).count InputAction.ClearMotions = 1 := by
  have hnc := inputCallbacks_no_clear buf
  have hk0 : (inputCallbacks buf).count InputAction.ClearKeys = 0 :=
    List.count_eq_zero.mpr hnc.1
  have hm0 : (inputCallbacks buf).count InputAction.ClearMotions = 0 :=
    List.count_eq_zero.mpr hnc.2
  have htk : ((inputCallbacks buf).take j).count InputAction.ClearKeys = 0 :=
    List.count_eq_zero.mpr (fun hmem => hnc.1 (List.take_subset j _ hmem))
  have htm : ((inputCallbacks buf).take j).count InputAction.ClearMotions = 0 :=
    List.count_eq_zero.mpr (fun hmem => hnc.2 (List.take_subset j _ hmem))
  refine ⟨rfl, ?_, ?_, ?_, ?_, ?_, ?_, ?_⟩
  · simp [inputEvents, inputCallbacks]
  · have ht : isKeyCbAct ∘ InputAction.KeyCb = fun _ => true := rfl
    have hf : isKeyCbAct ∘ InputAction.MotionCb = fun _ => false := rfl
    simp [inputEvents, inputCallbacks, inputBufferDrop, List.countP_append,
      List.countP_map, ht, hf, List.countP_true, List.countP_false, isKeyCbAct]
  · have ht : isMotionCbAct ∘ InputAction.MotionCb = fun _ => true := rfl
    have hf : isMotionCbAct ∘ InputAction.KeyCb = fun _ => false := rfl
    simp [inputEvents, inputCallbacks, inputBufferDrop, List.countP_append,
      List.countP_map, ht, hf, List.countP_true, List.countP_false, isMotionCbAct]
  · simp [inputEvents, inputBufferDrop, List.count_append, hk0]
  · simp [inputEvents, inputBufferDrop, List.count_append, hm0]
  · simp [inputEventsAborted, inputBufferDrop, List.count_append, htk]
  · simp [inputEventsAborted, inputBufferDrop, List.count_append, htm]

theorem nativeWindow_eq (st : AppCache) : nativeWindow st = st.window := by
  cases h : st.window <;> simp [nativeWindow, h]

theorem find?_append_singleton {α : Type} (p : α → Bool) (l : List α) (c : α) :
    (l ++ [c]).find? p =
      match l.find? p with
      | some x => some x
      | none => if p c then some c else none := by
  induction l with
  | nil => by_cases hp : p c <;> simp [List.find?, hp]
  | cons a t ih =>
    by_cases hp : p a
    · simp [List.find?_cons_of_pos _ hp]
    · simp only [List.cons_append, List.find?_cons_of_neg _ hp, ih]

theorem surfaceSomeSpecFrom_cons (w0 : Bool) (c : MainEvent) (cmds : List MainEvent) :
    surfaceSomeSpecFrom w0 (c :: cmds) =
      surfaceSomeSpecFrom
        (match c with
          | .InitWindow => true
          | .TerminateWindow => false
          | _ => w0) cmds := by
  unfold surfaceSomeSpecFrom
  rw [List.reverse_cons, find?_append_singleton]
  cases hf : cmds.reverse.find? isWindowCmd with
  | some x => cases x <;> rfl
  | none => cases c <;> simp [hf, isWindowCmd]

theorem runMainCmds_window (envs : List CmdEnv) :
    ∀ st st2, runMainCmds envs st = .ok st2 →
      st2.window.isSome = surfaceSomeSpecFrom st.window.isSome (envs.map CmdEnv.cmd) := by
  induction envs with
  | nil =>
    intro st st2 h
    simp only [runMainCmds, Except.ok.injEq] at h
    subst h
    rfl
  | cons e rest ih =>
    intro st st2 h
    unfold runMainCmds at h
    rcases hcu : cacheUpdate e.cmd e.appConfig e.appWindow st with ⟨acts, res⟩
    rw [hcu] at h
    cases res with
    | error msg => simp at h
    | ok st1 =>
      simp only at h
      have ih2 := ih st1 st2 h
      rw [List.map_cons, surfaceSomeSpecFrom_cons, ih2]
      congr 1
      cases hc : e.cmd <;> simp only [cacheUpdate, hc] at hcu
      case InitWindow =>
        by_cases hw : e.appWindow = 0
        · rw [if_pos hw] at hcu; simp at hcu
        · rw [if_neg hw] at hcu
          obtain ⟨-, hs⟩ := Prod.mk.injEq .. ▸ hcu
          cases hs
          rfl
      all_goals
        first
        | (obtain ⟨-, hs⟩ := Prod.mk.injEq .. ▸ hcu
           cases hs
           rfl)



/-- C2: after any panic-free sequence of surfaced main commands processed
from the initial cache, the cached display surface returned by
native_window is Some iff an InitWindow command was observed more recently
than the last TerminateWindow (or no TerminateWindow was observed yet),
and no command other than InitWindow/TerminateWindow changes the cached
surface. -/
theorem claim2_surface_invariant (cfg0 : Nat) (envs : List CmdEnv) (st2 : AppCache)
    (h : runMainCmds envs ⟨cfg0, none⟩ = .ok st2) :
    ((nativeWindow st2).isSome = surfaceSomeSpec (envs.map CmdEnv.cmd)) ∧
    (∀ (c : MainEvent) (cfg w : Nat) (st : AppCache) (acts : List Action) (st3 : AppCache),
      isWindowCmd c = false → cacheUpdate c cfg w st = (acts, .ok st3) →
      st3.window = st.window) := by
  constructor
  · have hw := runMainCmds_window envs ⟨cfg0, none⟩ st2 h
    rw [nativeWindow_eq]
    simpa [surfaceSomeSpec] using hw
  · intro c cfg w st acts st3 hnc hcu
    cases c <;> simp only [isWindowCmd] at hnc <;> try exact absurd hnc (by decide)
    all_goals
      simp only [cacheUpdate, Prod.mk.injEq, Except.ok.injEq] at hcu
      obtain ⟨-, hs⟩ := hcu
      subst hs
      rfl

/-- C2 witness: Start, InitWindow(5), TerminateWindow, ConfigChanged,
InitWindow(7) leaves the surface cached as Some, matching the spec
predicate. -/
theorem claim2_surface_invariant_witness :
    (nativeWindow ⟨3, some 7⟩).isSome =
      surfaceSomeSpec [.Start, .InitWindow, .TerminateWindow, .ConfigChanged, .InitWindow] :=
  (claim2_surface_invariant 0
    [⟨.Start, 0, 0⟩, ⟨.InitWindow, 0, 5⟩, ⟨.TerminateWindow, 0, 5⟩,
     ⟨.ConfigChanged, 3, 0⟩, ⟨.InitWindow, 3, 7⟩] ⟨3, some 7⟩ rfl).1

theorem cacheUpdate_err_iff (cmd : MainEvent) (cfg w : Nat) (st : AppCache) :
    isErr (cacheUpdate cmd cfg w st).2 = true ↔ (cmd = .InitWindow ∧ w = 0) := by
  cases cmd <;> by_cases hw : w = 0 <;> simp [cacheUpdate, isErr, hw]

/-- The exact condition under which the native-activity dispatch panics. -/
def nativePanicCond (ctx : PollCtx) : Prop :=
  (0 ≤ ctx.pollId ∧ intToU32 ctx.pollId = LOOPER_ID_MAIN ∧
    (ctx.sourcePtr = 0 ∨
     parseCmdNative (intToU32 ctx.pendingCmd) = none ∨
     (parseCmdNative (intToU32 ctx.pendingCmd) = some (some .InitWindow) ∧
      ctx.appWindow = 0))) ∨
  (0 ≤ ctx.pollId ∧ intToU32 ctx.pollId ≠ LOOPER_ID_MAIN ∧
    intToU32 ctx.pollId ≠ LOOPER_ID_INPUT ∧
    fdEventFromBits (intToU32 ctx.events) = none)

theorem dispatchNative_err_iff (ctx : PollCtx) (st : AppCache) :
    isErr (dispatchNative ctx st).2 = true ↔ nativePanicCond ctx := by
  by_cases h1 : ctx.pollId = ALOOPER_POLL_WAKE
  · simp [dispatchNative, h1, isErr, nativePanicCond, ALOOPER_POLL_WAKE,
      ALOOPER_POLL_CALLBACK, ALOOPER_POLL_TIMEOUT, ALOOPER_POLL_ERROR]
  by_cases h2 : ctx.pollId = ALOOPER_POLL_CALLBACK
  · simp [dispatchNative, h1, h2, isErr, nativePanicCond, ALOOPER_POLL_WAKE,
      ALOOPER_POLL_CALLBACK, ALOOPER_POLL_TIMEOUT, ALOOPER_POLL_ERROR]
  by_cases h3 : ctx.pollId = ALOOPER_POLL_TIMEOUT
  · simp [dispatchNative, h1, h2, h3, isErr, nativePanicCond, ALOOPER_POLL_WAKE,
      ALOOPER_POLL_CALLBACK, ALOOPER_POLL_TIMEOUT, ALOOPER_POLL_ERROR]
  by_cases h4 : ctx.pollId = ALOOPER_POLL_ERROR
  · simp [dispatchNative, h1, h2, h3, h4, isErr, nativePanicCond, ALOOPER_POLL_WAKE,
      ALOOPER_POLL_CALLBACK, ALOOPER_POLL_TIMEOUT, ALOOPER_POLL_ERROR]
  by_cases h5 : 0 ≤ ctx.pollId
  case neg =>
    simp [dispatchNative, h1, h2, h3, h4, h5, isErr, nativePanicCond]
  by_cases h6 : intToU32 ctx.pollId = LOOPER_ID_MAIN
  · by_cases h7 : ctx.sourcePtr = 0
    · have h7n : ¬(ctx.sourcePtr ≠ 0) := by simpa using h7
      simp [dispatchNative, h1, h2, h3, h4, h5, h6, h7, h7n, isErr, nativePanicCond]
    · have h7p : ctx.sourcePtr ≠ 0 := h7
      cases hp : parseCmdNative (intToU32 ctx.pendingCmd) with
      | none =>
        simp [dispatchNative, h1, h2, h3, h4, h5, h6, h7p, hp, isErr, nativePanicCond]
      | some optCmd =>
        cases optCmd with
        | none =>
          simp [dispatchNative, h1, h2, h3, h4, h5, h6, h7p, hp, isErr, nativePanicCond]
        | some cmd =>
          rcases hcu : cacheUpdate cmd ctx.appConfig ctx.appWindow st with ⟨upd, res⟩
          have herr := cacheUpdate_err_iff cmd ctx.appConfig ctx.appWindow st
          rw [hcu] at herr
          cases res with
          | error e =>
            obtain ⟨hcmd, hw0⟩ : cmd = .InitWindow ∧ ctx.appWindow = 0 := by
              simpa [isErr] using herr
            subst hcmd
            simp only [dispatchNative, if_neg h1, if_neg h2, if_neg h3, if_neg h4,
              if_pos h5, if_pos h6, if_pos h7p, hp, hcu]
            simp [isErr, nativePanicCond, h5, h6, hp, hw0]
          | ok st2 =>
            have hniw : ¬(cmd = .InitWindow ∧ ctx.appWindow = 0) := by
              simpa [isErr] using herr
            simp only [dispatchNative, if_neg h1, if_neg h2, if_neg h3, if_neg h4,
              if_pos h5, if_pos h6, if_pos h7p, hp, hcu]
            simp only [isErr]
            refine ⟨fun hx => absurd hx (by simp), fun hcond => ?_⟩
            exfalso
            unfold nativePanicCond at hcond
            rcases hcond with ⟨-, -, hc⟩ | ⟨-, hne, -, -⟩
            · rcases hc with hc | hc | hc
              · exact h7 hc
              · rw [hp] at hc; exact Option.noConfusion hc
              · rw [hp] at hc
                have hcmd : cmd = MainEvent.InitWindow := by
                  have h9 := hc.1
                  injection h9 with h10
                  injection h10
                exact hniw ⟨hcmd, hc.2⟩
            · exact hne h6
  · by_cases h8 : intToU32 ctx.pollId = LOOPER_ID_INPUT
    · simp [dispatchNative, h1, h2, h3, h4, h5, h6, h8, isErr, nativePanicCond,
        LOOPER_ID_MAIN, LOOPER_ID_INPUT]
    · cases hf : fdEventFromBits (intToU32 ctx.events) with
      | none =>
        simp [dispatchNative, h1, h2, h3, h4, h5, h6, h8, hf, isErr, nativePanicCond]
      | some flags =>
        simp [dispatchNative, h1, h2, h3, h4, h5, h6, h8, hf, isErr, nativePanicCond]

/-- C8 counterexample: the claim lists exactly three panic triggers for
`poll_events` (unknown command code, malformed event-mask bits, null main
source payload), but an `InitWindow` command (code 1) delivered while the
`android_app` window pointer is null also panics — here none of the three
listed conditions holds, yet the call panics. -/
theorem claim8_counterexample :
    isErr (pollEventsNative none ⟨1, 0, 0, 1, 1, 7, 0⟩ ⟨0, none⟩).2 = true ∧
    parseCmdNative (intToU32 ((⟨1, 0, 0, 1, 1, 7, 0⟩ : PollCtx).pendingCmd)) ≠ none ∧
    (⟨1, 0, 0, 1, 1, 7, 0⟩ : PollCtx).sourcePtr ≠ 0 ∧
    fdEventFromBits (intToU32 ((⟨1, 0, 0, 1, 1, 7, 0⟩ : PollCtx).events)) ≠ none := by
  decide

/-- C8 (amended): `poll_events` panics exactly on: a null main-channel
polling-source payload, an unknown command code, an `InitWindow` command
with a null native window pointer, or (for a custom source) an event mask
whose bits do not decode to the known flag set; `StateSaver::store` panics
exactly when allocation fails.  None of these is a recoverable result. -/
theorem claim8_panic_conditions (timeout : Option Nat) (ctx : PollCtx) (st : AppCache)
    (b : List Nat) (h : SaveHeap) :
    (isErr (pollEventsNative timeout ctx st).2 = true ↔ nativePanicCond ctx) ∧
    isErr (store b false h).2 = true ∧
    isErr (store b true h).2 = false := by
  refine ⟨?_, ?_, ?_⟩
  · have hd := dispatchNative_err_iff ctx st
    simpa [pollEventsNative] using hd
  · cases hs : h.slot <;> simp [store, hs, isErr]
  · cases hs : h.slot <;> simp [store, hs, isErr]

end AndroidActivity
